import Mathlib

/-!
Shallow embedding of the sandbox lifecycle manager implemented in
src/server/vm_manager.py (classes FirecrackerVM, VMManager), together with
proofs checking the natural-language specification against it.

The external world (local filesystem, OS process table, S3 object store,
fault injection for the network) is made explicit as a `World` record that
every operation threads through.  Python exceptions are modelled with
`Except`: an operation returns `(Except PyErr result) × World`, so the state
reached at the moment an exception propagates is preserved.
-/

set_option autoImplicit false

namespace VMM

/-- Contents of a file or S3 object, as a byte list. -/
abbrev Bytes := List Nat

/-- Python exceptions that the modelled code can raise. -/
inductive PyErr where
  /-- botocore ClientError with its error code (e.g. "404"). -/
  | clientError (code : String)
  /-- failure raised by upload_file. -/
  | uploadError (code : String)
  /-- subprocess.TimeoutExpired from Popen.wait(timeout). -/
  | timeoutExpired
  /-- json.JSONDecodeError from json.loads. -/
  | jsonDecodeError
  /-- FileNotFoundError (e.g. shutil.copy from a missing source). -/
  | fileNotFound
  /-- socket-level failure during an API call. -/
  | socketError
deriving Repr, DecidableEq

/-- Association-list lookup (Python dict access / filesystem path lookup). -/
def alGet {α : Type} (k : String) : List (String × α) → Option α
  | [] => none
  | (k1, v) :: rest => if k1 = k then some v else alGet k rest

/-- Delete every binding of key `k` (Python `del d[k]` / `os.remove`). -/
def alDel {α : Type} (k : String) : List (String × α) → List (String × α)
  | [] => []
  | (k1, v) :: rest => if k1 = k then alDel k rest else (k1, v) :: alDel k rest

/-- Set key `k` to `v` (Python `d[k] = v` / writing a file). -/
def alSet {α : Type} (k : String) (v : α) (l : List (String × α)) :
    List (String × α) :=
  (k, v) :: alDel k l

/-- The external world threaded through every modelled operation. -/
structure World where
  /-- Local filesystem: path to contents. A socket file is a `[]` entry. -/
  fs : List (String × Bytes)
  /-- Pids of OS processes currently running. -/
  alive : List Nat
  /-- Next pid subprocess.Popen will hand out. -/
  nextPid : Nat
  /-- Whether a spawned firecracker process creates its api socket within
  the 50-iteration polling loop of FirecrackerVM.start. -/
  socketAppears : Bool
  /-- Fault injection for the four boot API calls of FirecrackerVM.start,
  indexed 0..3 in call order; `some e` means the call raises `e`. -/
  apiErr : Nat → Option PyErr
  /-- Whether a process exits within Popen.wait(timeout=10) after
  Popen.terminate is sent to it. -/
  exitsOnTerm : Nat → Bool
  /-- S3 object store: key to contents. -/
  s3Store : List (String × Bytes)
  /-- Fault injection for download_file: `some code` raises ClientError. -/
  s3DownFault : String → Option String
  /-- Fault injection for upload_file: `some code` raises an upload error. -/
  s3UpFault : String → Option String

/-- Write a local file (creating or replacing it). -/
def World.writeFile (w : World) (p : String) (b : Bytes) : World :=
  { w with fs := alSet p b w.fs }

/-- Remove a local file; removing an absent path changes nothing, which
also models the `if os.path.exists(p): os.remove(p)` pattern. -/
def World.removeFile (w : World) (p : String) : World :=
  { w with fs := alDel p w.fs }

/-- One Firecracker microVM handle: the fields of FirecrackerVM.__init__,
with `process` the Popen handle (a pid when spawned). -/
structure FirecrackerVM where
  vm_id : String
  socket_path : String
  kernel_path : String
  rootfs_path : String
  vcpu_count : Nat := 1
  mem_size_mib : Nat := 512
  process : Option Nat := none
deriving Repr, DecidableEq

/-- FirecrackerVM.is_running: the process handle exists and poll() is None,
i.e. the pid is still alive. -/
def FirecrackerVM.isRunning (vm : FirecrackerVM) (w : World) : Bool :=
  match vm.process with
  | some pid => decide (pid ∈ w.alive)
  | none => false

/-- The value json.loads produces for a JSON object, abstracted to a
string-to-string map; the empty dict `\x7b\x7d` is `[]`. -/
abbrev PyDict := List (String × String)

/-- Python `s.split(sep, 1)` on character lists, reported as the pair
around the first occurrence of `sep`, or `none` when `sep` does not occur
(in which case Python returns the one-element list `[s]`). -/
def breakOn (sep : List Char) : List Char → Option (List Char × List Char)
  | [] => none
  | c :: cs =>
    if sep.isPrefixOf (c :: cs) then some ([], (c :: cs).drop sep.length)
    else
      match breakOn sep cs with
      | some (a, b) => some (c :: a, b)
      | none => none

/-- The response handling of FirecrackerVM._api_call (lines 57-61): split
the raw response once on the blank line; when a separator and a nonempty
body are present, hand the body to the JSON decoder (whose failure
propagates); otherwise return the empty dict.  `decode` stands for
json.loads. -/
def apiCallParse (decode : String → Except PyErr PyDict)
    (response : String) : Except PyErr PyDict :=
  match breakOn "\r\n\r\n".data response.data with
  | some (_, body) =>
    if body.isEmpty then .ok [] else decode (String.mk body)
  | none => .ok []

/-- First fault among the four boot API calls, in call order; the calls
after a raising one are never attempted. -/
def firstApiErrOf (f : Nat → Option PyErr) : Option PyErr :=
  match f 0 with
  | some e => some e
  | none =>
    match f 1 with
    | some e => some e
    | none =>
      match f 2 with
      | some e => some e
      | none => f 3

/-- The world after the spawning phase of FirecrackerVM.start: the stale
socket file is removed, a fresh pid is spawned and alive, and the new
socket file exists exactly when the polling loop would find it.  (The
fields consulted afterwards — socketAppears, apiErr — are unchanged by
this phase, so the API phase below can read them from the same world.) -/
def bootWorld (vm : FirecrackerVM) (w : World) : World :=
  { w with
    alive := w.nextPid :: w.alive
    nextPid := w.nextPid + 1
    fs := if w.socketAppears then
            alSet vm.socket_path [] (alDel vm.socket_path w.fs)
          else alDel vm.socket_path w.fs }

/-- The value FirecrackerVM.start returns (or the exception it raises):
False when the socket polling loop exhausts its 50 attempts; otherwise the
first API fault propagates; otherwise True.  No branch terminates the
spawned process. -/
def bootOutcome (w : World) : Except PyErr Bool :=
  if w.socketAppears then
    match firstApiErrOf w.apiErr with
    | some e => .error e
    | none => .ok true
  else .ok false

/-- FirecrackerVM.start: remove a stale socket, spawn the firecracker
process, poll for the socket, then issue the four boot API calls.  If the
socket never appears the method returns False with the process left
spawned; if an API call raises, the exception propagates, again with the
process left spawned; on success it returns True.  In every case the
handle now carries the spawned pid and the world is the post-spawn one. -/
def FirecrackerVM.start (vm : FirecrackerVM) (w : World) :
    Except PyErr Bool × FirecrackerVM × World :=
  (bootOutcome w, { vm with process := some w.nextPid }, bootWorld vm w)

/-- FirecrackerVM.stop: Popen.terminate then Popen.wait(timeout=10); if the
process does not exit within the timeout, wait raises TimeoutExpired and
the socket cleanup below it is never reached.  If it exits (or no process
was spawned), the socket file is removed. -/
def FirecrackerVM.stop (vm : FirecrackerVM) (w : World) :
    Except PyErr Unit × FirecrackerVM × World :=
  match vm.process with
  | some pid =>
    if w.exitsOnTerm pid then
      (.ok (), { vm with process := none },
        { w with alive := w.alive.filter (fun q => q ≠ pid),
                 fs := alDel vm.socket_path w.fs })
    else
      (.error .timeoutExpired, vm, w)
  | none =>
    (.ok (), vm, w.removeFile vm.socket_path)

/-- The manager of VMManager.__init__: `s3_client` is present exactly when
`s3_bucket` is, so only the bucket is recorded. -/
structure VMManager where
  firecracker_bin : String := "/usr/bin/firecracker"
  kernel_path : String := "/opt/firecracker/vmlinux"
  base_rootfs_path : String := "/opt/firecracker/rootfs.ext4"
  vm_dir : String := "/tmp/firecracker-vms"
  s3_bucket : Option String := none
  vms : List (String × FirecrackerVM) := []

/-- VMManager._get_user_rootfs_path. -/
def VMManager.userRootfsPath (m : VMManager) (uid : String) : String :=
  m.vm_dir ++ "/" ++ uid ++ "_rootfs.ext4"

/-- VMManager._get_socket_path. -/
def VMManager.sockPath (m : VMManager) (uid : String) : String :=
  m.vm_dir ++ "/" ++ uid ++ ".sock"

/-- The deterministic per-tenant S3 key used by both save and restore. -/
def s3Key (uid : String) : String := "users/" ++ uid ++ "/rootfs.ext4"

/-- VMManager.restore_from_s3: False without touching storage when no
client; download to the user rootfs path; ClientError code "404" becomes
False, any other ClientError re-raises. -/
def VMManager.restore_from_s3 (m : VMManager) (uid : String) (w : World) :
    Except PyErr Bool × World :=
  if m.s3_bucket.isNone then (.ok false, w)
  else
    match w.s3DownFault (s3Key uid) with
    | some code =>
      if code = "404" then (.ok false, w)
      else (.error (.clientError code), w)
    | none =>
      match alGet (s3Key uid) w.s3Store with
      | some bs => (.ok true, w.writeFile (m.userRootfsPath uid) bs)
      | none => (.ok false, w)

/-- VMManager.save_to_s3: False without touching storage when no client;
False when the local rootfs is missing; otherwise upload (which may raise)
and return True. -/
def VMManager.save_to_s3 (m : VMManager) (uid : String) (w : World) :
    Except PyErr Bool × World :=
  if m.s3_bucket.isNone then (.ok false, w)
  else
    match alGet (m.userRootfsPath uid) w.fs with
    | none => (.ok false, w)
    | some bs =>
      match w.s3UpFault (s3Key uid) with
      | some code => (.error (.uploadError code), w)
      | none => (.ok true, { w with s3Store := alSet (s3Key uid) bs w.s3Store })

/-- The FirecrackerVM constructed by VMManager.create_vm before start. -/
def VMManager.freshVM (m : VMManager) (uid : String) : FirecrackerVM :=
  { vm_id := uid
    socket_path := m.sockPath uid
    kernel_path := m.kernel_path
    rootfs_path := m.userRootfsPath uid }

/-- The VM handle as it stands after FirecrackerVM.start inside
create_vm: the fresh VM carrying the spawned pid. -/
def VMManager.bootedVM (m : VMManager) (uid : String) (w : World) :
    FirecrackerVM :=
  { m.freshVM uid with process := some w.nextPid }

/-- Tail of VMManager.create_vm: build the FirecrackerVM, call start, and
record it in the live map.  The Boolean returned by start is ignored, so
the instance is recorded even when start returned False. -/
def VMManager.startPhase (m : VMManager) (uid : String) (w : World) :
    Except PyErr FirecrackerVM × VMManager × World :=
  match (m.freshVM uid).start w with
  | (.error e, _, w1) => (.error e, m, w1)
  | (.ok _, vm1, w1) => (.ok vm1, { m with vms := alSet uid vm1 m.vms }, w1)

/-- Middle of VMManager.create_vm: if the local rootfs is absent, try S3
restore, and on a False restore copy the base image into place. -/
def VMManager.createFresh (m : VMManager) (uid : String) (w : World) :
    Except PyErr FirecrackerVM × VMManager × World :=
  match alGet (m.userRootfsPath uid) w.fs with
  | some _ => m.startPhase uid w
  | none =>
    match m.restore_from_s3 uid w with
    | (.error e, w1) => (.error e, m, w1)
    | (.ok true, w1) => m.startPhase uid w1
    | (.ok false, w1) =>
      match alGet m.base_rootfs_path w1.fs with
      | none => (.error .fileNotFound, m, w1)
      | some bb => m.startPhase uid (w1.writeFile (m.userRootfsPath uid) bb)

/-- VMManager.create_vm: return the recorded instance when it is live,
otherwise build (restoring or seeding the rootfs) and start a new one. -/
def VMManager.create_vm (m : VMManager) (uid : String) (w : World) :
    Except PyErr FirecrackerVM × VMManager × World :=
  match alGet uid m.vms with
  | some vm => if vm.isRunning w then (.ok vm, m, w) else m.createFresh uid w
  | none => m.createFresh uid w

/-- VMManager.stop_vm: no-op when the tenant is not in the live map;
otherwise stop the VM, optionally save to S3, then delete the map entry.
An exception from stop or save propagates before the deletion runs. -/
def VMManager.stop_vm (m : VMManager) (uid : String) (save : Bool)
    (w : World) : Except PyErr Unit × VMManager × World :=
  match alGet uid m.vms with
  | none => (.ok (), m, w)
  | some vm =>
    match vm.stop w with
    | (.error e, _, w1) => (.error e, m, w1)
    | (.ok _, _, w1) =>
      if save then
        match m.save_to_s3 uid w1 with
        | (.error e, w2) => (.error e, m, w2)
        | (.ok _, w2) => (.ok (), { m with vms := alDel uid m.vms }, w2)
      else
        (.ok (), { m with vms := alDel uid m.vms }, w1)

/-- VMManager.get_vm. -/
def VMManager.get_vm (m : VMManager) (uid : String) : Option FirecrackerVM :=
  alGet uid m.vms

/-- Tenant status, per the interface of the specification. -/
inductive Status where
  | Running
  | Absent
deriving Repr, DecidableEq

/-- Modelled from the spec: `status(tenant_id) -> Running | Absent` has no
body in src/server/vm_manager.py (only get_vm exists); per the spec a
tenant is Running when a live instance is recorded for it and its process
is alive, Absent otherwise. -/
def VMManager.status (m : VMManager) (uid : String) (w : World) : Status :=
  match m.get_vm uid with
  | some vm => if vm.isRunning w then .Running else .Absent
  | none => .Absent

/-! ### Concrete fixtures for witnesses and counterexamples -/

/-- Baseline concrete world: only the shared base image exists, nothing is
alive, S3 is empty and fault-free, sockets appear promptly, API calls
succeed, and processes exit when terminated. -/
def w0 : World :=
  { fs := [("/opt/firecracker/rootfs.ext4", [7, 7])]
    alive := []
    nextPid := 0
    socketAppears := true
    apiErr := fun _ => none
    exitsOnTerm := fun _ => true
    s3Store := []
    s3DownFault := fun _ => none
    s3UpFault := fun _ => none }

/-- A manager with all constructor defaults: no S3 bucket, empty map. -/
def m0 : VMManager := {}

/-- A manager configured with an S3 bucket and an empty live map. -/
def mS3 : VMManager := { s3_bucket := some "vm-snapshots" }

/-- The local rootfs path m0 computes for tenant "alice". -/
def rootfsAlice : String := "/tmp/firecracker-vms/alice_rootfs.ext4"

/-- World where the spawned process never creates its api socket, so the
polling loop in FirecrackerVM.start exhausts its attempts. -/
def wSockFail : World := { w0 with socketAppears := false }

/-- Same socket failure, with the local rootfs for "alice" already
present. -/
def wSockFailFs : World :=
  { w0 with socketAppears := false, fs := [(rootfsAlice, [7, 7])] }

/-- World where the boot-source call succeeds but the second boot API
call — the root-drive configuration — raises, with the local rootfs for
"alice" already present. -/
def wDriveFail : World :=
  { w0 with fs := [(rootfsAlice, [7, 7])],
            apiErr := fun i => if i = 1 then some .socketError else none }

/-- The socket path m0 computes for tenant "alice". -/
def sockAlice : String := "/tmp/firecracker-vms/alice.sock"

/-- A stopped (never-spawned) VM handle for "alice", as recorded in a live
map. -/
def vmPlain : FirecrackerVM :=
  { vm_id := "alice"
    socket_path := sockAlice
    kernel_path := "/opt/firecracker/vmlinux"
    rootfs_path := rootfsAlice }

/-- A manager with a bucket and "alice" recorded in the live map. -/
def mLive : VMManager :=
  { s3_bucket := some "vm-snapshots", vms := [("alice", vmPlain)] }

/-- World with the local rootfs for "alice" present and no faults. -/
def wNoFault : World := { w0 with fs := [(rootfsAlice, [7, 7])] }

/-- World with the local rootfs present but every S3 upload raising. -/
def wUpFault : World :=
  { w0 with fs := [(rootfsAlice, [7, 7])],
            s3UpFault := fun _ => some "500" }

/-- A VM handle whose process (pid 5) ignores the terminate signal. -/
def vmStuck : FirecrackerVM := { vmPlain with process := some 5 }

/-- World where pid 5 is alive, its socket file exists, and no process
exits within the terminate timeout. -/
def wStuck : World :=
  { w0 with alive := [5]
            fs := [(sockAlice, []), (rootfsAlice, [7, 7])]
            exitsOnTerm := fun _ => false }

/-- Same as wStuck but processes exit promptly on terminate. -/
def wExit : World := { wStuck with exitsOnTerm := fun _ => true }

/-- A JSON decoder that rejects every body, to exhibit responses whose
body is never consulted. -/
def decFail : String → Except PyErr PyDict :=
  fun _ => .error .jsonDecodeError

/-- A live VM handle for "alice" running as pid 5. -/
def vmLive5 : FirecrackerVM := { vmPlain with process := some 5 }

/-- A manager with a bucket and the running "alice" instance recorded. -/
def mLive5 : VMManager :=
  { s3_bucket := some "vm-snapshots", vms := [("alice", vmLive5)] }

/-- World where pid 5 runs with its socket file and a distinctive rootfs
content for "alice"; no faults anywhere. -/
def wRun : World :=
  { w0 with alive := [5], fs := [(sockAlice, []), (rootfsAlice, [3, 1, 4])] }

/-- World where every S3 download raises a non-404 ClientError. -/
def wDownFault : World :=
  { w0 with s3DownFault := fun _ => some "403" }

/-- A manager without a bucket but with "alice" recorded live. -/
def mNoBktLive : VMManager := { vms := [("alice", vmPlain)] }

/-! ### Helper lemmas -/

@[simp] theorem alGet_nil {α : Type} (k : String) :
    alGet k ([] : List (String × α)) = none := rfl

@[simp] theorem alGet_cons {α : Type} (k k1 : String) (v : α)
    (l : List (String × α)) :
    alGet k ((k1, v) :: l) = if k1 = k then some v else alGet k l := rfl

@[simp] theorem alGet_alSet_self {α : Type} (k : String) (v : α)
    (l : List (String × α)) : alGet k (alSet k v l) = some v := by
  simp [alSet]

theorem alGet_alDel_ne {α : Type} (k k1 : String) (l : List (String × α))
    (h : k1 ≠ k) : alGet k1 (alDel k l) = alGet k1 l := by
  induction l with
  | nil => rfl
  | cons p rest ih =>
    obtain ⟨k2, v⟩ := p
    by_cases h2 : k2 = k
    · subst h2
      simp [alDel, Ne.symm h, ih]
    · simp [alDel, h2]
      by_cases h3 : k2 = k1 <;> simp [h3, ih]

theorem alGet_alSet_ne {α : Type} (k k1 : String) (v : α)
    (l : List (String × α)) (h : k1 ≠ k) :
    alGet k1 (alSet k v l) = alGet k1 l := by
  simp [alSet, Ne.symm h, alGet_alDel_ne k k1 l h]

@[simp] theorem alGet_alDel_self {α : Type} (k : String)
    (l : List (String × α)) : alGet k (alDel k l) = none := by
  induction l with
  | nil => rfl
  | cons p rest ih =>
    obtain ⟨k2, v⟩ := p
    by_cases h2 : k2 = k <;> simp [alDel, h2, ih]

/-- The per-tenant socket path and rootfs path never collide. -/
theorem sockPath_ne_userRootfsPath (m : VMManager) (uid : String) :
    m.sockPath uid ≠ m.userRootfsPath uid := by
  intro h
  have hlen := congrArg String.length h
  simp [VMManager.sockPath, VMManager.userRootfsPath,
    String.length_append] at hlen
  exact absurd hlen (by decide)

/-- A filesystem path other than the socket path is untouched by start. -/
theorem bootWorld_fs_other (vm : FirecrackerVM) (w : World) (p : String)
    (h : p ≠ vm.socket_path) :
    alGet p (bootWorld vm w).fs = alGet p w.fs := by
  unfold bootWorld
  by_cases hs : w.socketAppears <;>
    simp [hs, alGet_alSet_ne _ _ _ _ h, alGet_alDel_ne _ _ _ h]

/-- startPhase, written by cases on the outcome of the boot sequence. -/
theorem startPhase_eq (m : VMManager) (uid : String) (w : World) :
    m.startPhase uid w =
      match bootOutcome w with
      | .error e => (.error e, m, bootWorld (m.freshVM uid) w)
      | .ok _ =>
        (.ok (m.bootedVM uid w),
          { m with vms := alSet uid (m.bootedVM uid w) m.vms },
          bootWorld (m.freshVM uid) w) := by
  unfold VMManager.startPhase FirecrackerVM.start VMManager.bootedVM
  rcases bootOutcome w with e | b <;> rfl

/-- If startPhase returns ok, the returned instance is recorded in the
live map and carries the pid that is alive in the returned world. -/
theorem startPhase_ok (m : VMManager) (uid : String) (w : World)
    (vm : FirecrackerVM) (m2 : VMManager) (w2 : World)
    (h : m.startPhase uid w = (.ok vm, m2, w2)) :
    alGet uid m2.vms = some vm ∧ vm.isRunning w2 = true := by
  rw [startPhase_eq] at h
  rcases ho : bootOutcome w with e | b <;> rw [ho] at h <;> simp at h
  obtain ⟨h1, h2, h3⟩ := h
  subst h1 h2 h3
  refine ⟨by simp, ?_⟩
  simp [FirecrackerVM.isRunning, bootWorld, VMManager.bootedVM,
    VMManager.freshVM]

/-- If startPhase returns ok, the returned world is the boot world of the
input world. -/
theorem startPhase_ok_world (m : VMManager) (uid : String) (w : World)
    (vm : FirecrackerVM) (m2 : VMManager) (w2 : World)
    (h : m.startPhase uid w = (.ok vm, m2, w2)) :
    w2 = bootWorld (m.freshVM uid) w := by
  rw [startPhase_eq] at h
  rcases ho : bootOutcome w with e | b <;> rw [ho] at h <;> simp at h
  exact h.2.2.symm

/-- restore_from_s3 only ever touches the filesystem: the process table,
pid counter and oracles of the returned world are those of the input. -/
theorem restore_preserves (m : VMManager) (uid : String) (w : World) :
    ((m.restore_from_s3 uid w).2).alive = w.alive ∧
    ((m.restore_from_s3 uid w).2).nextPid = w.nextPid := by
  unfold VMManager.restore_from_s3
  repeat' split
  all_goals exact ⟨rfl, rfl⟩

/-- Whatever startPhase returns, the world it returns is the boot world of
its input (start runs in every non-raising path of createFresh). -/
theorem startPhase_world (m : VMManager) (uid : String) (w : World) :
    (m.startPhase uid w).2.2 = bootWorld (m.freshVM uid) w := by
  rw [startPhase_eq]
  rcases ho : bootOutcome w with e | b <;> rfl

/-- FirecrackerVM.stop never touches the S3 store. -/
theorem stop_s3Store (vm : FirecrackerVM) (w : World) :
    ((vm.stop w).2.2).s3Store = w.s3Store := by
  unfold FirecrackerVM.stop
  repeat' split
  all_goals rfl

/-- When the tenant rootfs already exists locally, createFresh leaves its
bytes untouched: neither restore, nor base-copy, nor the boot sequence
writes to that path. -/
theorem createFresh_fs_preexisting (m : VMManager) (uid : String)
    (w : World) (bs : Bytes)
    (hfs : alGet (m.userRootfsPath uid) w.fs = some bs) :
    alGet (m.userRootfsPath uid) ((m.createFresh uid w).2.2).fs =
      some bs := by
  unfold VMManager.createFresh
  rw [hfs]
  rw [startPhase_world, bootWorld_fs_other]
  · exact hfs
  · simpa [VMManager.freshVM] using (sockPath_ne_userRootfsPath m uid).symm

/-- Same as createFresh_fs_preexisting, lifted to create_vm for a tenant
with no live map entry. -/
theorem create_vm_fs_preexisting (m : VMManager) (uid : String)
    (w : World) (bs : Bytes)
    (hmap : alGet uid m.vms = none)
    (hfs : alGet (m.userRootfsPath uid) w.fs = some bs) :
    alGet (m.userRootfsPath uid) ((m.create_vm uid w).2.2).fs =
      some bs := by
  unfold VMManager.create_vm
  rw [hmap]
  exact createFresh_fs_preexisting m uid w bs hfs

/-- If createFresh returns ok, the instance is recorded and running, and
exactly one process was spawned (the pid counter advanced once and the new
pid heads the process table). -/
theorem createFresh_ok_shape (m : VMManager) (uid : String) (w : World)
    (vm : FirecrackerVM) (m2 : VMManager) (w2 : World)
    (h : m.createFresh uid w = (.ok vm, m2, w2)) :
    alGet uid m2.vms = some vm ∧ vm.isRunning w2 = true ∧
    w2.nextPid = w.nextPid + 1 ∧ w2.alive = w.nextPid :: w.alive := by
  have hphase : ∀ w1 : World, m.startPhase uid w1 = (.ok vm, m2, w2) →
      w1.nextPid = w.nextPid → w1.alive = w.alive →
      alGet uid m2.vms = some vm ∧ vm.isRunning w2 = true ∧
      w2.nextPid = w.nextPid + 1 ∧ w2.alive = w.nextPid :: w.alive := by
    intro w1 hsp hp ha
    obtain ⟨h1, h2⟩ := startPhase_ok _ _ _ _ _ _ hsp
    have hw := startPhase_ok_world _ _ _ _ _ _ hsp
    subst hw
    exact ⟨h1, h2, by simp [bootWorld, hp], by simp [bootWorld, hp, ha]⟩
  unfold VMManager.createFresh at h
  rcases hfs : alGet (m.userRootfsPath uid) w.fs with _ | b0
  · rw [hfs] at h
    simp only [] at h
    rcases hres : m.restore_from_s3 uid w with ⟨r, w1⟩
    rw [hres] at h
    have hpres := restore_preserves m uid w
    rw [hres] at hpres
    rcases r with e | b
    · simp at h
    · rcases b with _ | _
      · simp only [] at h
        rcases hbase : alGet m.base_rootfs_path w1.fs with _ | bb
        · rw [hbase] at h; simp at h
        · rw [hbase] at h
          exact hphase _ h hpres.2 hpres.1
      · exact hphase _ h hpres.2 hpres.1
  · rw [hfs] at h
    exact hphase _ h rfl rfl

/-- If create_vm returns ok, the returned instance is recorded in the live
map of the returned manager and its process is alive in the returned
world.  (This covers both the early-return path and the fresh-boot path;
in the latter the instance is recorded even when start reported False.) -/
theorem create_ok_live (m : VMManager) (uid : String) (w : World)
    (vm : FirecrackerVM) (m2 : VMManager) (w2 : World)
    (h : m.create_vm uid w = (.ok vm, m2, w2)) :
    alGet uid m2.vms = some vm ∧ vm.isRunning w2 = true := by
  unfold VMManager.create_vm at h
  rcases hget : alGet uid m.vms with _ | vm0 <;> rw [hget] at h
  · obtain ⟨h1, h2, _⟩ := createFresh_ok_shape _ _ _ _ _ _ h
    exact ⟨h1, h2⟩
  · by_cases hrun : vm0.isRunning w
    · simp [hrun] at h
      obtain ⟨h1, h2, h3⟩ := h
      subst h1 h2 h3
      exact ⟨hget, hrun⟩
    · simp [hrun] at h
      obtain ⟨h1, h2, _⟩ := createFresh_ok_shape _ _ _ _ _ _ h
      exact ⟨h1, h2⟩

/-! ### Claim C2 -/

/-- Claim C2 (confirmed): starting from a tenant with no map entry, a
successful create_vm records exactly one freshly spawned process (the pid
counter advances once and the new pid heads the process table), and a
second create_vm with no intervening stop_vm returns the very same
instance, manager and world: the live running instance is observed via
is_running and returned unchanged, with no re-boot and no second spawn. -/
theorem c2_create_vm_idempotent (m : VMManager) (uid : String) (w : World)
    (vm : FirecrackerVM) (m2 : VMManager) (w2 : World)
    (hfresh : alGet uid m.vms = none)
    (h : m.create_vm uid w = (.ok vm, m2, w2)) :
    m2.create_vm uid w2 = (.ok vm, m2, w2) ∧
    w2.nextPid = w.nextPid + 1 ∧ w2.alive = w.nextPid :: w.alive := by
  have hshape : alGet uid m2.vms = some vm ∧ vm.isRunning w2 = true ∧
      w2.nextPid = w.nextPid + 1 ∧ w2.alive = w.nextPid :: w.alive := by
    unfold VMManager.create_vm at h
    rw [hfresh] at h
    exact createFresh_ok_shape _ _ _ _ _ _ h
  obtain ⟨h1, h2, h3, h4⟩ := hshape
  refine ⟨?_, h3, h4⟩
  unfold VMManager.create_vm
  rw [h1]
  simp [h2]

/-- Witness for C2: a concrete successful boot of tenant "alice" from the
base image, after which the second create_vm is the identity. -/
theorem c2_create_vm_idempotent_witness :
    ((m0.create_vm "alice" w0).2.1).create_vm "alice"
        (m0.create_vm "alice" w0).2.2 =
      ((m0.create_vm "alice" w0).1, (m0.create_vm "alice" w0).2.1,
        (m0.create_vm "alice" w0).2.2) ∧
    ((m0.create_vm "alice" w0).2.2).nextPid = w0.nextPid + 1 ∧
    ((m0.create_vm "alice" w0).2.2).alive = w0.nextPid :: w0.alive := by
  have h := c2_create_vm_idempotent m0 "alice" w0
    { vm_id := "alice"
      socket_path := "/tmp/firecracker-vms/alice.sock"
      kernel_path := "/opt/firecracker/vmlinux"
      rootfs_path := "/tmp/firecracker-vms/alice_rootfs.ext4"
      process := some 0 }
    (m0.create_vm "alice" w0).2.1 (m0.create_vm "alice" w0).2.2 rfl rfl
  exact ⟨by rw [h.1]; rfl, h.2.1, h.2.2⟩

/-! ### Claim C1 -/

/-- Counterexample to claim C1: for tenant "alice", the control-endpoint
wait fails during create_vm, yet no failure is surfaced (the result is
ok), "alice" is recorded in the live map, status reports Running, and the
spawned process (pid 0) is still running — it was never terminated. -/
theorem c1_counterexample :
    (m0.create_vm "alice" wSockFail).1 =
        .ok (m0.bootedVM "alice" wSockFail) ∧
    ((m0.create_vm "alice" wSockFail).2.1).get_vm "alice" =
        some (m0.bootedVM "alice" wSockFail) ∧
    ((m0.create_vm "alice" wSockFail).2.1).status "alice"
        (m0.create_vm "alice" wSockFail).2.2 = .Running ∧
    (m0.create_vm "alice" wSockFail).2.2.alive = [0] :=
  ⟨rfl, rfl, rfl, rfl⟩

/-- Claim C1 as amended: for a fresh tenant whose rootfs is in place, (a)
when the control-endpoint wait fails, create_vm surfaces no failure at
all: it returns ok, records the tenant in the live map (status Running)
and leaves the spawned process running; (b) when any of the four boot API
steps (boot-source, root drive, machine-config, start action) fails —
`firstApiErrOf wB.apiErr = some e` says the first failure among the four
calls, whichever step it is, raises `e` — that failure is surfaced and
the tenant is not recorded (status Absent), but the spawned process is
again left running, never terminated. -/
theorem c1_boot_failure_amended (m : VMManager) (uid : String)
    (wA wB : World) (bA bB : Bytes) (e : PyErr)
    (hmap : alGet uid m.vms = none)
    (hfsA : alGet (m.userRootfsPath uid) wA.fs = some bA)
    (hsockA : wA.socketAppears = false)
    (hfsB : alGet (m.userRootfsPath uid) wB.fs = some bB)
    (hsockB : wB.socketAppears = true)
    (hapiB : firstApiErrOf wB.apiErr = some e) :
    m.create_vm uid wA =
      (.ok (m.bootedVM uid wA),
        { m with vms := alSet uid (m.bootedVM uid wA) m.vms },
        bootWorld (m.freshVM uid) wA) ∧
    wA.nextPid ∈ (bootWorld (m.freshVM uid) wA).alive ∧
    ({ m with vms := alSet uid (m.bootedVM uid wA) m.vms }).status uid
        (bootWorld (m.freshVM uid) wA) = .Running ∧
    m.create_vm uid wB =
      (.error e, m, bootWorld (m.freshVM uid) wB) ∧
    wB.nextPid ∈ (bootWorld (m.freshVM uid) wB).alive ∧
    m.status uid (bootWorld (m.freshVM uid) wB) = .Absent := by
  refine ⟨?_, ?_, ?_, ?_, ?_, ?_⟩
  · unfold VMManager.create_vm
    rw [hmap]
    unfold VMManager.createFresh
    rw [hfsA, startPhase_eq]
    have hbo : bootOutcome wA = .ok false := by
      simp [bootOutcome, hsockA]
    rw [hbo]
  · simp [bootWorld]
  · simp [VMManager.status, VMManager.get_vm, FirecrackerVM.isRunning,
      VMManager.bootedVM, VMManager.freshVM, bootWorld]
  · unfold VMManager.create_vm
    rw [hmap]
    unfold VMManager.createFresh
    rw [hfsB, startPhase_eq]
    have hbo : bootOutcome wB = .error e := by
      simp [bootOutcome, hsockB, hapiB]
    rw [hbo]
  · simp [bootWorld]
  · simp [VMManager.status, VMManager.get_vm, hmap]

/-- Witness for the amended C1, at tenant "alice" with concrete worlds
for the two failure modes; the API-failure world has the boot-source call
succeed and the root-drive configuration call (the second step) raise. -/
theorem c1_boot_failure_amended_witness :
    m0.create_vm "alice" wSockFailFs =
      (.ok (m0.bootedVM "alice" wSockFailFs),
        { m0 with vms := alSet "alice" (m0.bootedVM "alice" wSockFailFs) m0.vms },
        bootWorld (m0.freshVM "alice") wSockFailFs) ∧
    wSockFailFs.nextPid ∈ (bootWorld (m0.freshVM "alice") wSockFailFs).alive ∧
    ({ m0 with vms := alSet "alice" (m0.bootedVM "alice" wSockFailFs) m0.vms
      }).status "alice" (bootWorld (m0.freshVM "alice") wSockFailFs) =
        .Running ∧
    m0.create_vm "alice" wDriveFail =
      (.error .socketError, m0, bootWorld (m0.freshVM "alice") wDriveFail) ∧
    wDriveFail.nextPid ∈ (bootWorld (m0.freshVM "alice") wDriveFail).alive ∧
    m0.status "alice" (bootWorld (m0.freshVM "alice") wDriveFail) = .Absent :=
  c1_boot_failure_amended m0 "alice" wSockFailFs wDriveFail [7, 7] [7, 7]
    .socketError rfl rfl rfl rfl rfl rfl

/-! ### Claim C3 -/

/-- Counterexample to claim C3: for tenant "alice" with a live instance,
a failing snapshot upload during stop_vm(save=true) propagates as a
generic exception and prevents the removal of "alice" from the live map,
which still holds the instance afterwards. -/
theorem c3_counterexample :
    (mLive.stop_vm "alice" true wUpFault).1 =
        .error (.uploadError "500") ∧
    ((mLive.stop_vm "alice" true wUpFault).2.1).get_vm "alice" =
        some vmPlain :=
  ⟨rfl, rfl⟩

/-- Claim C3 as amended: after a clean process stop, stop_vm(save=true)
removes the tenant from the live map only when save_to_s3 does not raise
(a False return — missing source or no bucket — is silently ignored and
removal still happens); when the upload raises, the exception propagates
to the caller as-is, not as a distinct condition, and the tenant remains
in the live map. -/
theorem c3_stop_save_amended (m : VMManager) (uid : String)
    (wG wB : World) (vm vmG vmB : FirecrackerVM) (wG1 wG2 wB1 wB2 : World)
    (bv : Bool) (e : PyErr)
    (hmap : alGet uid m.vms = some vm)
    (hstopG : vm.stop wG = (.ok (), vmG, wG1))
    (hsaveG : m.save_to_s3 uid wG1 = (.ok bv, wG2))
    (hstopB : vm.stop wB = (.ok (), vmB, wB1))
    (hsaveB : m.save_to_s3 uid wB1 = (.error e, wB2)) :
    m.stop_vm uid true wG =
      (.ok (), { m with vms := alDel uid m.vms }, wG2) ∧
    ({ m with vms := alDel uid m.vms } : VMManager).get_vm uid = none ∧
    m.stop_vm uid true wB = (.error e, m, wB2) ∧
    m.get_vm uid = some vm := by
  refine ⟨?_, ?_, ?_, hmap⟩
  · simp [VMManager.stop_vm, hmap, hstopG, hsaveG]
  · simp [VMManager.get_vm]
  · simp [VMManager.stop_vm, hmap, hstopB, hsaveB]

/-- Witness for the amended C3: tenant "alice", one world where the save
succeeds and one where the upload raises. -/
theorem c3_stop_save_amended_witness :
    mLive.stop_vm "alice" true wNoFault =
      (.ok (), { mLive with vms := alDel "alice" mLive.vms },
        (mLive.save_to_s3 "alice" (vmPlain.stop wNoFault).2.2).2) ∧
    ({ mLive with vms := alDel "alice" mLive.vms } : VMManager).get_vm
        "alice" = none ∧
    mLive.stop_vm "alice" true wUpFault =
      (.error (.uploadError "500"), mLive,
        (mLive.save_to_s3 "alice" (vmPlain.stop wUpFault).2.2).2) ∧
    mLive.get_vm "alice" = some vmPlain :=
  c3_stop_save_amended mLive "alice" wNoFault wUpFault vmPlain
    (vmPlain.stop wNoFault).2.1 (vmPlain.stop wUpFault).2.1
    (vmPlain.stop wNoFault).2.2
    (mLive.save_to_s3 "alice" (vmPlain.stop wNoFault).2.2).2
    (vmPlain.stop wUpFault).2.2
    (mLive.save_to_s3 "alice" (vmPlain.stop wUpFault).2.2).2
    true (.uploadError "500") rfl rfl rfl rfl rfl

/-! ### Claim C6 -/

/-- Counterexample to claim C6: a started process (pid 5) that ignores the
terminate signal makes stop raise TimeoutExpired; the process is never
force-killed (still alive afterwards) and the socket file is not removed. -/
theorem c6_counterexample :
    (vmStuck.stop wStuck).1 = .error .timeoutExpired ∧
    (vmStuck.stop wStuck).2.2.alive = [5] ∧
    alGet sockAlice (vmStuck.stop wStuck).2.2.fs = some [] :=
  ⟨rfl, rfl, rfl⟩

/-- Claim C6 as amended: stop sends terminate and waits up to the
timeout; when the process exits within it, stop succeeds, the process is
gone and the socket file is removed; when it does not, TimeoutExpired
propagates, the process is not force-killed (it stays alive) and the
socket file is not removed — the cleanup is conditional, not
unconditional. -/
theorem c6_stop_amended (vm : FirecrackerVM) (pid : Nat) (wG wB : World)
    (hproc : vm.process = some pid)
    (hexG : wG.exitsOnTerm pid = true)
    (hexB : wB.exitsOnTerm pid = false) :
    (vm.stop wG).1 = .ok () ∧
    pid ∉ (vm.stop wG).2.2.alive ∧
    alGet vm.socket_path (vm.stop wG).2.2.fs = none ∧
    vm.stop wB = (.error .timeoutExpired, vm, wB) := by
  refine ⟨?_, ?_, ?_, ?_⟩ <;>
    · unfold FirecrackerVM.stop
      rw [hproc]
      simp [hexG, hexB, List.mem_filter]

/-- Witness for the amended C6: pid 5, one world where it exits on
terminate and one (wStuck) where it does not. -/
theorem c6_stop_amended_witness :
    (vmStuck.stop wExit).1 = .ok () ∧
    5 ∉ (vmStuck.stop wExit).2.2.alive ∧
    alGet vmStuck.socket_path (vmStuck.stop wExit).2.2.fs = none ∧
    vmStuck.stop wStuck = (.error .timeoutExpired, vmStuck, wStuck) :=
  c6_stop_amended vmStuck 5 wExit wStuck rfl rfl rfl

/-! ### Claim C4 -/

/-- Claim C4 (confirmed): save and restore act on the same deterministic
per-tenant key `s3Key uid`.  With a bucket, a fault-free world and the
tenant rootfs holding bytes `bs`: save succeeds and stores exactly `bs`
under the key; restore immediately after yields a local image with the
same bytes `bs`; and stop_vm(save=true) followed by create_vm leaves the
tenant rootfs byte-identical to the one present before the stop. -/
theorem c4_save_restore_roundtrip (m : VMManager) (uid : String)
    (w : World) (bkt : String) (bs : Bytes) (vm : FirecrackerVM)
    (pid : Nat)
    (hbkt : m.s3_bucket = some bkt)
    (hfs : alGet (m.userRootfsPath uid) w.fs = some bs)
    (hup : w.s3UpFault (s3Key uid) = none)
    (hdown : w.s3DownFault (s3Key uid) = none)
    (hmap : alGet uid m.vms = some vm)
    (hsock : vm.socket_path = m.sockPath uid)
    (hproc : vm.process = some pid)
    (hex : w.exitsOnTerm pid = true) :
    (m.save_to_s3 uid w).1 = .ok true ∧
    alGet (s3Key uid) ((m.save_to_s3 uid w).2).s3Store = some bs ∧
    (m.restore_from_s3 uid (m.save_to_s3 uid w).2).1 = .ok true ∧
    alGet (m.userRootfsPath uid)
      ((m.restore_from_s3 uid (m.save_to_s3 uid w).2).2).fs = some bs ∧
    (m.stop_vm uid true w).1 = .ok () ∧
    alGet (m.userRootfsPath uid)
      ((((m.stop_vm uid true w).2.1).create_vm uid
        (m.stop_vm uid true w).2.2).2.2).fs = some bs := by
  have hne : m.userRootfsPath uid ≠ m.sockPath uid :=
    (sockPath_ne_userRootfsPath m uid).symm
  have hsave : m.save_to_s3 uid w =
      (.ok true, { w with s3Store := alSet (s3Key uid) bs w.s3Store }) := by
    simp [VMManager.save_to_s3, hbkt, hfs, hup]
  have hrest : m.restore_from_s3 uid
      { w with s3Store := alSet (s3Key uid) bs w.s3Store } =
      (.ok true,
        ({ w with s3Store := alSet (s3Key uid) bs w.s3Store
          } : World).writeFile (m.userRootfsPath uid) bs) := by
    simp [VMManager.restore_from_s3, hbkt, hdown]
  have hstop : vm.stop w =
      (.ok (), { vm with process := none },
        { w with alive := w.alive.filter (fun q => q ≠ pid),
                 fs := alDel vm.socket_path w.fs }) := by
    simp [FirecrackerVM.stop, hproc, hex]
  have hfs1 : alGet (m.userRootfsPath uid) (alDel vm.socket_path w.fs) =
      some bs := by
    rw [hsock, alGet_alDel_ne _ _ _ hne]
    exact hfs
  have hstopvm : m.stop_vm uid true w =
      (.ok (), { m with vms := alDel uid m.vms },
        { w with alive := w.alive.filter (fun q => q ≠ pid),
                 fs := alDel vm.socket_path w.fs,
                 s3Store := alSet (s3Key uid) bs w.s3Store }) := by
    unfold VMManager.stop_vm
    rw [hmap]
    dsimp only
    rw [hstop]
    dsimp only
    simp [VMManager.save_to_s3, hbkt, hup, hfs1]
  refine ⟨?_, ?_, ?_, ?_, ?_, ?_⟩
  · rw [hsave]
  · rw [hsave]
    simp
  · rw [hsave]
    dsimp only
    rw [hrest]
  · rw [hsave]
    dsimp only
    rw [hrest]
    simp [World.writeFile]
  · rw [hstopvm]
  · rw [hstopvm]
    dsimp only
    have hpath : ({ m with vms := alDel uid m.vms } :
        VMManager).userRootfsPath uid = m.userRootfsPath uid := rfl
    rw [show (m.userRootfsPath uid) =
      (({ m with vms := alDel uid m.vms } :
        VMManager).userRootfsPath uid) from rfl]
    apply create_vm_fs_preexisting
    · simp
    · rw [hpath]
      exact hfs1

/-- Witness for C4: manager mLive5 (bucket plus live "alice" at pid 5) in
the fault-free world wRun whose "alice" rootfs holds bytes [3, 1, 4]. -/
theorem c4_save_restore_roundtrip_witness :
    (mLive5.save_to_s3 "alice" wRun).1 = .ok true ∧
    alGet (s3Key "alice") ((mLive5.save_to_s3 "alice" wRun).2).s3Store =
      some [3, 1, 4] ∧
    (mLive5.restore_from_s3 "alice"
      (mLive5.save_to_s3 "alice" wRun).2).1 = .ok true ∧
    alGet (mLive5.userRootfsPath "alice")
      ((mLive5.restore_from_s3 "alice"
        (mLive5.save_to_s3 "alice" wRun).2).2).fs = some [3, 1, 4] ∧
    (mLive5.stop_vm "alice" true wRun).1 = .ok () ∧
    alGet (mLive5.userRootfsPath "alice")
      ((((mLive5.stop_vm "alice" true wRun).2.1).create_vm "alice"
        (mLive5.stop_vm "alice" true wRun).2.2).2.2).fs =
      some [3, 1, 4] :=
  c4_save_restore_roundtrip mLive5 "alice" wRun "vm-snapshots" [3, 1, 4]
    vmLive5 5 rfl rfl rfl rfl rfl rfl rfl rfl

/-! ### Claim C5 -/

/-- Counterexample to claim C5: a truncated control-channel response with
no blank-line separator is returned as a silent empty dict, even under a
decoder that rejects every body — no ProtocolError is surfaced. -/
theorem c5_counterexample :
    apiCallParse decFail "HTTP/1.1 200" = .ok [] ∧
    apiCallParse decFail "HTTP/1.1 200 OK\r\nContent-Len" = .ok [] :=
  ⟨rfl, rfl⟩

/-- Claim C5 as amended: a response lacking the blank-line separator, or
one whose body is empty, yields a silent empty-dict result for every
decoder — never an error; only a present nonempty body reaches the JSON
decoder, whose failure then propagates. -/
theorem c5_api_parse_amended (decode : String → Except PyErr PyDict)
    (r1 r2 r3 : String) (hdr2 hdr3 body3 : List Char)
    (h1 : breakOn "\r\n\r\n".data r1.data = none)
    (h2 : breakOn "\r\n\r\n".data r2.data = some (hdr2, []))
    (h3 : breakOn "\r\n\r\n".data r3.data = some (hdr3, body3))
    (hb : body3.isEmpty = false) :
    apiCallParse decode r1 = .ok [] ∧
    apiCallParse decode r2 = .ok [] ∧
    apiCallParse decode r3 = decode (String.mk body3) := by
  refine ⟨?_, ?_, ?_⟩ <;> simp [apiCallParse, h1, h2, h3, hb]

/-- Witness for the amended C5: a truncated response, a header-only
response, and a response with a nonempty (non-JSON) body, under the
all-rejecting decoder. -/
theorem c5_api_parse_amended_witness :
    apiCallParse decFail "HTTP/1.1 200" = .ok [] ∧
    apiCallParse decFail "HTTP/1.1 204 OK\r\n\r\n" = .ok [] ∧
    apiCallParse decFail "HTTP/1.1 200 OK\r\n\r\nnot-json" =
      decFail (String.mk "not-json".data) :=
  c5_api_parse_amended decFail "HTTP/1.1 200" "HTTP/1.1 204 OK\r\n\r\n"
    "HTTP/1.1 200 OK\r\n\r\nnot-json" "HTTP/1.1 204 OK".data
    "HTTP/1.1 200 OK".data "not-json".data rfl rfl rfl rfl

/-! ### Claim C7 -/

/-- Claim C7 (confirmed): with a bucket configured and no snapshot stored
for the tenant, restore_from_s3 returns False with no error and no world
change; create_vm for such a fresh tenant then copies the shared base
image to the tenant rootfs path and proceeds to spawn the process (the
pid counter advances); a download failure with any ClientError code other
than "404" propagates as an error instead of returning False. -/
theorem c7_restore_not_found (m : VMManager) (uid : String)
    (w wE : World) (bkt : String) (bb : Bytes) (code : String)
    (hbkt : m.s3_bucket = some bkt)
    (hdf : w.s3DownFault (s3Key uid) = none)
    (hstore : alGet (s3Key uid) w.s3Store = none)
    (hmap : alGet uid m.vms = none)
    (hfs : alGet (m.userRootfsPath uid) w.fs = none)
    (hbase : alGet m.base_rootfs_path w.fs = some bb)
    (hdfE : wE.s3DownFault (s3Key uid) = some code)
    (hcode : code ≠ "404") :
    m.restore_from_s3 uid w = (.ok false, w) ∧
    alGet (m.userRootfsPath uid) ((m.create_vm uid w).2.2).fs = some bb ∧
    ((m.create_vm uid w).2.2).nextPid = w.nextPid + 1 ∧
    m.restore_from_s3 uid wE = (.error (.clientError code), wE) := by
  have h1 : m.restore_from_s3 uid w = (.ok false, w) := by
    simp [VMManager.restore_from_s3, hbkt, hdf, hstore]
  have hcv : m.create_vm uid w =
      m.startPhase uid (w.writeFile (m.userRootfsPath uid) bb) := by
    unfold VMManager.create_vm
    rw [hmap]
    unfold VMManager.createFresh
    rw [hfs]
    dsimp only
    rw [h1]
    dsimp only
    rw [hbase]
  refine ⟨h1, ?_, ?_, ?_⟩
  · rw [hcv, startPhase_world, bootWorld_fs_other]
    · simp [World.writeFile]
    · simpa [VMManager.freshVM] using
        (sockPath_ne_userRootfsPath m uid).symm
  · rw [hcv, startPhase_world]
    simp [bootWorld, World.writeFile]
  · simp [VMManager.restore_from_s3, hbkt, hdfE, hcode]

/-- Witness for C7: bucket manager mS3, brand-new tenant "alice" in the
baseline world, and the download-fault world for the error case. -/
theorem c7_restore_not_found_witness :
    mS3.restore_from_s3 "alice" w0 = (.ok false, w0) ∧
    alGet (mS3.userRootfsPath "alice")
      ((mS3.create_vm "alice" w0).2.2).fs = some [7, 7] ∧
    ((mS3.create_vm "alice" w0).2.2).nextPid = w0.nextPid + 1 ∧
    mS3.restore_from_s3 "alice" wDownFault =
      (.error (.clientError "403"), wDownFault) :=
  c7_restore_not_found mS3 "alice" w0 wDownFault "vm-snapshots" [7, 7]
    "403" rfl rfl rfl rfl rfl rfl rfl (by decide)

/-! ### Claim C8 -/

/-- Counterexample to claim C8: with a bucket configured but the local
source image missing, save_to_s3 returns the ordinary non-error result
False — it does not fail loudly. -/
theorem c8_counterexample :
    mS3.save_to_s3 "alice" w0 = (.ok false, w0) := rfl

/-- Claim C8 as amended: save returns False as an ordinary non-error
result when the local source image is missing; only an upload-transport
failure is surfaced, and as the raised transport exception rather than a
distinct SnapshotUploadFailed condition. -/
theorem c8_save_amended (m : VMManager) (uid : String) (wM wU : World)
    (bkt : String) (bs : Bytes) (code : String)
    (hbkt : m.s3_bucket = some bkt)
    (hfsM : alGet (m.userRootfsPath uid) wM.fs = none)
    (hfsU : alGet (m.userRootfsPath uid) wU.fs = some bs)
    (hupU : wU.s3UpFault (s3Key uid) = some code) :
    m.save_to_s3 uid wM = (.ok false, wM) ∧
    m.save_to_s3 uid wU = (.error (.uploadError code), wU) := by
  constructor <;> simp [VMManager.save_to_s3, hbkt, hfsM, hfsU, hupU]

/-- Witness for the amended C8: tenant "alice" with a missing source in
the baseline world and a raising upload in the fault world. -/
theorem c8_save_amended_witness :
    mS3.save_to_s3 "alice" w0 = (.ok false, w0) ∧
    mS3.save_to_s3 "alice" wUpFault =
      (.error (.uploadError "500"), wUpFault) :=
  c8_save_amended mS3 "alice" w0 wUpFault "vm-snapshots" [7, 7] "500"
    rfl rfl rfl rfl

/-! ### Claim C9 -/

/-- Claim C9 (confirmed): stop_vm on a tenant with no live map entry is a
no-op success: it returns without error and with the manager and the whole
world (process table, filesystem, S3 store) unchanged. -/
theorem c9_stop_absent_noop (m : VMManager) (uid : String) (sv : Bool)
    (w : World) (h : alGet uid m.vms = none) :
    m.stop_vm uid sv w = (.ok (), m, w) := by
  unfold VMManager.stop_vm
  rw [h]

/-- Witness for C9: stopping the never-created tenant "ghost". -/
theorem c9_stop_absent_noop_witness :
    m0.stop_vm "ghost" true w0 = (.ok (), m0, w0) :=
  c9_stop_absent_noop m0 "ghost" true w0 rfl

/-! ### Claim C10 -/

/-- Claim C10 (confirmed): with no S3 bucket configured, restore_from_s3
and save_to_s3 both return False with the world — including the S3 store —
completely untouched and no error signalled; create_vm for a tenant with
no local rootfs therefore seeds it from the base image; and
stop_vm(save=true) on a live tenant removes it from the live map while
persisting nothing (the S3 store after the stop is the one before it). -/
theorem c10_no_bucket (m : VMManager) (uidN uidL : String)
    (w wC wS wS1 : World) (bb : Bytes) (vm vmS : FirecrackerVM)
    (hb : m.s3_bucket = none)
    (hmapC : alGet uidN m.vms = none)
    (hfsC : alGet (m.userRootfsPath uidN) wC.fs = none)
    (hbase : alGet m.base_rootfs_path wC.fs = some bb)
    (hmapS : alGet uidL m.vms = some vm)
    (hstopS : vm.stop wS = (.ok (), vmS, wS1)) :
    m.restore_from_s3 uidN w = (.ok false, w) ∧
    m.save_to_s3 uidN w = (.ok false, w) ∧
    alGet (m.userRootfsPath uidN) ((m.create_vm uidN wC).2.2).fs =
      some bb ∧
    m.stop_vm uidL true wS =
      (.ok (), { m with vms := alDel uidL m.vms }, wS1) ∧
    wS1.s3Store = wS.s3Store := by
  have h1 : m.restore_from_s3 uidN wC = (.ok false, wC) := by
    simp [VMManager.restore_from_s3, hb]
  have hcv : m.create_vm uidN wC =
      m.startPhase uidN (wC.writeFile (m.userRootfsPath uidN) bb) := by
    unfold VMManager.create_vm
    rw [hmapC]
    unfold VMManager.createFresh
    rw [hfsC]
    dsimp only
    rw [h1]
    dsimp only
    rw [hbase]
  refine ⟨?_, ?_, ?_, ?_, ?_⟩
  · simp [VMManager.restore_from_s3, hb]
  · simp [VMManager.save_to_s3, hb]
  · rw [hcv, startPhase_world, bootWorld_fs_other]
    · simp [World.writeFile]
    · simpa [VMManager.freshVM] using
        (sockPath_ne_userRootfsPath m uidN).symm
  · unfold VMManager.stop_vm
    rw [hmapS]
    dsimp only
    rw [hstopS]
    dsimp only
    simp [VMManager.save_to_s3, hb]
  · have hpres := stop_s3Store vm wS
    rw [hstopS] at hpres
    exact hpres

/-- Witness for C10: the bucketless manager mNoBktLive, fresh tenant
"bob" seeded from the base image, and live tenant "alice" stopped with
save requested. -/
theorem c10_no_bucket_witness :
    mNoBktLive.restore_from_s3 "bob" w0 = (.ok false, w0) ∧
    mNoBktLive.save_to_s3 "bob" w0 = (.ok false, w0) ∧
    alGet (mNoBktLive.userRootfsPath "bob")
      ((mNoBktLive.create_vm "bob" w0).2.2).fs = some [7, 7] ∧
    mNoBktLive.stop_vm "alice" true wNoFault =
      (.ok (), { mNoBktLive with vms := alDel "alice" mNoBktLive.vms },
        (vmPlain.stop wNoFault).2.2) ∧
    ((vmPlain.stop wNoFault).2.2).s3Store = wNoFault.s3Store :=
  c10_no_bucket mNoBktLive "bob" "alice" w0 w0 wNoFault
    (vmPlain.stop wNoFault).2.2 [7, 7] vmPlain
    (vmPlain.stop wNoFault).2.1 rfl rfl rfl rfl rfl rfl

end VMM
